import Mathlib

/-!
Verification of the FeedService layer (src/service/feedService.js) against its
specification. The service orchestrates a persistent Store (feedModel) and a
key-value Cache (redisHandle); both collaborators are external to the source
file and are modelled from the interface contract the spec gives for them.
Each public operation of the service is embedded as a pure function from an
explicit `World` (Store state, Cache state, console log, trace of issued
external calls) to a result together with the updated `World`.
-/

/-- JavaScript number result of `parseInt`: either NaN or an integer. -/
inductive JsNum where
  | nan : JsNum
  | num : Int → JsNum
deriving Repr, DecidableEq

/-- Longest leading run of decimal digits, folded into a value; `none` when no
digit has been seen yet (the JS `parseInt` NaN case). -/
def parseDigits : List Char → Option Nat → Option Nat
  | [], acc => acc
  | c :: cs, acc =>
    if c.isDigit then parseDigits cs (some ((acc.getD 0) * 10 + (c.toNat - 48)))
    else acc

/-- JavaScript `parseInt(s, 10)`: skip leading whitespace, optional sign,
longest digit prefix; NaN when no digit follows. -/
def parseInt10 (s : String) : JsNum :=
  let cs := s.data.dropWhile Char.isWhitespace
  match cs with
  | '-' :: rest =>
    match parseDigits rest none with
    | some n => JsNum.num (-(n : Int))
    | none => JsNum.nan
  | '+' :: rest =>
    match parseDigits rest none with
    | some n => JsNum.num (n : Int)
    | none => JsNum.nan
  | _ =>
    match parseDigits cs none with
    | some n => JsNum.num (n : Int)
    | none => JsNum.nan

/-- JavaScript `String.prototype.trim`: drop leading and trailing
whitespace. -/
def jsTrim (s : String) : String :=
  String.mk (((s.data.dropWhile Char.isWhitespace).reverse.dropWhile Char.isWhitespace).reverse)

/-- A feed record as the Store returns it: author identity and description. -/
structure Feed where
  firebase_uid : String
  description : String
deriving Repr, DecidableEq

/-- A feed image record: owning feed id, image id, image URL. -/
structure FeedImage where
  feed_id : String
  image_id : String
  url : String
deriving Repr, DecidableEq

/-- Modelled from the spec: the Store collaborator (`feedModel`, not under
src/). Durable state: feeds by id, images, (user, feed) like pairs, comment
counts, plus fresh-id counters for created feeds and images. -/
structure Store where
  nextId : Nat
  nextImageId : Nat
  feeds : List (String × Feed)
  images : List FeedImage
  likes : List (String × String)
  commentCounts : List (String × Nat)
deriving Repr, DecidableEq

/-- Modelled from the spec: `feedModel.getFeedById` — fetch a feed record by
id, absent feeds give a falsy result. -/
def Store.getFeed (s : Store) (id : String) : Option Feed :=
  (s.feeds.find? (fun p => p.1 == id)).map (fun p => p.2)

/-- Modelled from the spec: `feedModel.createFeed` — create a feed owned by
the author and return the fresh feed id. -/
def Store.createFeed (s : Store) (uid desc : String) : String × Store :=
  let id := "f" ++ toString s.nextId
  (id, { s with nextId := s.nextId + 1,
                feeds := s.feeds ++ [(id, { firebase_uid := uid, description := desc })] })

/-- Modelled from the spec: `feedModel.addFeedImages` — batch-append images to
a feed in the given order. -/
def Store.addFeedImages (s : Store) (fid : String) (urls : List String) : Store :=
  { s with nextImageId := s.nextImageId + urls.length,
           images := s.images ++ (urls.enum.map
             (fun p => { feed_id := fid,
                         image_id := "img" ++ toString (s.nextImageId + p.1),
                         url := p.2 })) }

/-- Modelled from the spec: `feedModel.updateFeed` — persist a new description
for the feed. -/
def Store.updateFeed (s : Store) (id desc : String) : Store :=
  { s with feeds :=
      s.feeds.map (fun p => if p.1 == id then (p.1, { p.2 with description := desc }) else p) }

/-- Modelled from the spec: `feedModel.deleteFeed` — remove the feed record. -/
def Store.deleteFeed (s : Store) (id : String) : Store :=
  { s with feeds := s.feeds.filter (fun p => p.1 != id) }

/-- Modelled from the spec: `feedModel.updateFeedImage` — replace the URL of a
single image of the feed. -/
def Store.updateFeedImage (s : Store) (fid iid url : String) : Store :=
  { s with images :=
      s.images.map (fun im => if im.feed_id == fid && im.image_id == iid then { im with url := url } else im) }

/-- Modelled from the spec: `feedModel.getFeedImageCount` — number of images
currently attached to the feed. -/
def Store.getFeedImageCount (s : Store) (fid : String) : Nat :=
  (s.images.filter (fun im => im.feed_id == fid)).length

/-- Modelled from the spec: `feedModel.deleteFeedImage` — delete a single
image of the feed by id. -/
def Store.deleteFeedImage (s : Store) (fid iid : String) : Store :=
  { s with images := s.images.eraseP (fun im => im.feed_id == fid && im.image_id == iid) }

/-- Modelled from the spec: `feedModel.checkLikeStatus` — whether the (user,
feed) like pair exists. -/
def Store.checkLikeStatus (s : Store) (uid fid : String) : Bool :=
  s.likes.contains (uid, fid)

/-- Modelled from the spec: `feedModel.likeFeed` — create the like pair. -/
def Store.likeFeed (s : Store) (uid fid : String) : Store :=
  { s with likes := s.likes ++ [(uid, fid)] }

/-- Modelled from the spec: `feedModel.unlikeFeed` — delete the like pair. -/
def Store.unlikeFeed (s : Store) (uid fid : String) : Store :=
  { s with likes := s.likes.filter (fun p => p != (uid, fid)) }

/-- Modelled from the spec: `feedModel.getLikeCount` — number of likes of the
feed. -/
def Store.getLikeCount (s : Store) (fid : String) : Nat :=
  (s.likes.filter (fun p => p.2 == fid)).length

/-- Modelled from the spec: `feedModel.getCommentCount` — number of comments
of the feed (comments live in an external collaborator; only the count is
consumed). -/
def Store.getCommentCount (s : Store) (fid : String) : Nat :=
  ((s.commentCounts.find? (fun p => p.1 == fid)).map (fun p => p.2)).getD 0

/-- Modelled from the spec: one Cache entry of the redis collaborator — key,
remaining TTL in seconds, and the stored string value. -/
structure CacheEntry where
  key : String
  ttl : Nat
  value : String
deriving Repr, DecidableEq

/-- Modelled from the spec: `redisHandle.get` — value stored under the key,
absent gives null. -/
def cacheLookup (c : List CacheEntry) (k : String) : Option String :=
  (c.find? (fun e => e.key == k)).map CacheEntry.value

/-- Modelled from the spec: `redisHandle.del` — remove the key, a no-op on an
absent key. -/
def cacheDelete (c : List CacheEntry) (k : String) : List CacheEntry :=
  c.filter (fun e => e.key != k)

/-- Modelled from the spec: `redisHandle.setex` — store a value under the key
with an expiry TTL, replacing any previous entry. -/
def cacheSet (c : List CacheEntry) (k : String) (ttl : Nat) (v : String) : List CacheEntry :=
  { key := k, ttl := ttl, value := v } :: cacheDelete c k

/-- An external call issued by the service: a Store call (by feedModel method
name) or a Cache call. -/
inductive Event where
  | storeCall : String → Event
  | cacheGet : String → Event
  | cacheSetex : String → Nat → String → Event
  | cacheDel : String → Event
deriving Repr, DecidableEq

/-- Whether an event is a call to the Store collaborator. -/
def Event.isStoreCall : Event → Bool
  | Event.storeCall _ => true
  | _ => false

/-- Full state the service interacts with: Store, Cache, the console error
log, and the trace of external calls issued so far. -/
structure World where
  store : Store
  cache : List CacheEntry
  log : List String
  trace : List Event
deriving Repr, DecidableEq

/-- Record externally issued calls in the trace. -/
def addTrace (w : World) (es : List Event) : World :=
  { w with trace := w.trace ++ es }

/-- The line `handleError` prints: the action tag and the original message. -/
def errLine (action msg : String) : String :=
  "Error " ++ action ++ ": " ++ msg

/-- `handleError` (feedService.js lines 5-8) wrapped around an operation body:
on success pass the result through; on failure log the tagged message and
re-throw a generic error carrying the original message. -/
def withHandle {α : Type} (action : String) :
    Except String α × World → Except String α × World
  | (Except.ok a, w) => (Except.ok a, w)
  | (Except.error msg, w) =>
      (Except.error msg, { w with log := w.log ++ [errLine action msg] })

/-- JavaScript truthiness of a nullable string: non-null and non-empty. -/
def truthy : Option String → Bool
  | some v => v != ""
  | none => false

/-- Cache key `feed:<feedId>:likeCount`. -/
def likeCountKey (fid : String) : String :=
  "feed:" ++ fid ++ ":likeCount"

/-- Cache key `feed:<feedId>:commentCount`. -/
def commentCountKey (fid : String) : String :=
  "feed:" ++ fid ++ ":commentCount"

/-- `createFeed` (feedService.js lines 11-27): create the feed, attach images
when a non-empty list is given, delete both counter cache keys for the new
id, return the id. -/
def createFeed (firebase_uid description : String) (imageUrls : Option (List String))
    (w : World) : Except String String × World :=
  withHandle "creating feed" (
    let r := Store.createFeed w.store firebase_uid description
    let feedId := r.1
    let w1 := { addTrace w [Event.storeCall "createFeed"] with store := r.2 }
    let w2 :=
      if (imageUrls.getD []).length > 0 then
        { addTrace w1 [Event.storeCall "addFeedImages"] with
            store := Store.addFeedImages r.2 feedId (imageUrls.getD []) }
      else w1
    let w3 := { addTrace w2 [Event.cacheDel (likeCountKey feedId)] with
                  cache := cacheDelete w2.cache (likeCountKey feedId) }
    let w4 := { addTrace w3 [Event.cacheDel (commentCountKey feedId)] with
                  cache := cacheDelete w3.cache (commentCountKey feedId) }
    (Except.ok feedId, w4))

/-- `getFeedById` (feedService.js lines 30-36): trim the id and fetch from the
Store; no cache involved. -/
def getFeedById (feed_id : String) (w : World) : Except String (Option Feed) × World :=
  withHandle "retrieving feed" (
    (Except.ok (Store.getFeed w.store (jsTrim feed_id)),
     addTrace w [Event.storeCall "getFeedById"]))

/-- `getAllFeeds` (feedService.js lines 39-45): unfiltered fetch of all feeds. -/
def getAllFeeds (w : World) : Except String (List (String × Feed)) × World :=
  withHandle "retrieving feeds" (
    (Except.ok w.store.feeds, addTrace w [Event.storeCall "getAllFeeds"]))

/-- `updateFeed` (feedService.js lines 48-68): trim the id, authorize against
the stored author, delete both counter cache keys, persist the description. -/
def updateFeed (feed_id firebase_uid description : String) (w : World) :
    Except String (Option Feed) × World :=
  withHandle "updating feed" (
    let fid := (jsTrim feed_id)
    let w1 := addTrace w [Event.storeCall "getFeedById"]
    match Store.getFeed w.store fid with
    | none => (Except.error "Feed not found", w1)
    | some feed =>
      if feed.firebase_uid != firebase_uid then
        (Except.error "Permission denied", w1)
      else
        let w2 := { addTrace w1 [Event.cacheDel (likeCountKey fid)] with
                      cache := cacheDelete w1.cache (likeCountKey fid) }
        let w3 := { addTrace w2 [Event.cacheDel (commentCountKey fid)] with
                      cache := cacheDelete w2.cache (commentCountKey fid) }
        let s2 := Store.updateFeed w3.store fid description
        (Except.ok (Store.getFeed s2 fid),
         { addTrace w3 [Event.storeCall "updateFeed"] with store := s2 }))

/-- `deleteFeed` (feedService.js lines 71-91): trim the id, authorize, delete
both counter cache keys, delete the feed. -/
def deleteFeed (feed_id firebase_uid : String) (w : World) :
    Except String Bool × World :=
  withHandle "deleting feed" (
    let fid := (jsTrim feed_id)
    let w1 := addTrace w [Event.storeCall "getFeedById"]
    match Store.getFeed w.store fid with
    | none => (Except.error "Feed not found", w1)
    | some feed =>
      if feed.firebase_uid != firebase_uid then
        (Except.error "Permission denied", w1)
      else
        let w2 := { addTrace w1 [Event.cacheDel (likeCountKey fid)] with
                      cache := cacheDelete w1.cache (likeCountKey fid) }
        let w3 := { addTrace w2 [Event.cacheDel (commentCountKey fid)] with
                      cache := cacheDelete w2.cache (commentCountKey fid) }
        (Except.ok true,
         { addTrace w3 [Event.storeCall "deleteFeed"] with
             store := Store.deleteFeed w3.store fid }))

/-- `updateFeedImage` (feedService.js lines 94-109): authorize using the raw
(untrimmed) feed id, then persist the new image URL; no cache involved. -/
def updateFeedImage (firebase_uid feed_id image_id newImageUrl : String) (w : World) :
    Except String Bool × World :=
  withHandle "updating feed image" (
    let w1 := addTrace w [Event.storeCall "getFeedById"]
    match Store.getFeed w.store feed_id with
    | none => (Except.error "Feed not found", w1)
    | some feed =>
      if feed.firebase_uid != firebase_uid then
        (Except.error "Permission denied", w1)
      else
        (Except.ok true,
         { addTrace w1 [Event.storeCall "updateFeedImage"] with
             store := Store.updateFeedImage w1.store feed_id image_id newImageUrl }))

/-- `deleteFeedImage` (feedService.js lines 112-132): authorize using the raw
feed id, reject when the image count is at most 1, otherwise delete the
image. -/
def deleteFeedImage (firebase_uid feed_id image_id : String) (w : World) :
    Except String Bool × World :=
  withHandle "deleting feed image" (
    let w1 := addTrace w [Event.storeCall "getFeedById"]
    match Store.getFeed w.store feed_id with
    | none => (Except.error "Feed not found", w1)
    | some feed =>
      if feed.firebase_uid != firebase_uid then
        (Except.error "Permission denied", w1)
      else
        let w2 := addTrace w1 [Event.storeCall "getFeedImageCount"]
        if Store.getFeedImageCount w2.store feed_id ≤ 1 then
          (Except.error "Can\x27t delete last image, need at least one image", w2)
        else
          (Except.ok true,
           { addTrace w2 [Event.storeCall "deleteFeedImage"] with
               store := Store.deleteFeedImage w2.store feed_id image_id }))

/-- `likeFeed` (feedService.js lines 135-157): trim the id, require the feed
to exist and the pair to be unliked, persist the like, invalidate the
like-count cache key, return true. -/
def likeFeed (firebase_uid feed_id : String) (w : World) :
    Except String Bool × World :=
  withHandle "liking feed" (
    let fid := (jsTrim feed_id)
    let w1 := addTrace w [Event.storeCall "getFeedById"]
    match Store.getFeed w.store fid with
    | none => (Except.error "Feed not found", w1)
    | some _ =>
      let w2 := addTrace w1 [Event.storeCall "checkLikeStatus"]
      if Store.checkLikeStatus w2.store firebase_uid fid then
        (Except.error "Already liked this feed", w2)
      else
        let w3 := { addTrace w2 [Event.storeCall "likeFeed"] with
                      store := Store.likeFeed w2.store firebase_uid fid }
        (Except.ok true,
         { addTrace w3 [Event.cacheDel (likeCountKey fid)] with
             cache := cacheDelete w3.cache (likeCountKey fid) }))

/-- `unlikeFeed` (feedService.js lines 160-182): trim the id, require the
feed to exist and the pair to be liked, persist the unlike, invalidate the
like-count cache key, return true. -/
def unlikeFeed (firebase_uid feed_id : String) (w : World) :
    Except String Bool × World :=
  withHandle "unliking feed" (
    let fid := (jsTrim feed_id)
    let w1 := addTrace w [Event.storeCall "getFeedById"]
    match Store.getFeed w.store fid with
    | none => (Except.error "Feed not found", w1)
    | some _ =>
      let w2 := addTrace w1 [Event.storeCall "checkLikeStatus"]
      if Store.checkLikeStatus w2.store firebase_uid fid then
        let w3 := { addTrace w2 [Event.storeCall "unlikeFeed"] with
                      store := Store.unlikeFeed w2.store firebase_uid fid }
        (Except.ok true,
         { addTrace w3 [Event.cacheDel (likeCountKey fid)] with
             cache := cacheDelete w3.cache (likeCountKey fid) })
      else
        (Except.error "Not liked this feed before, cannot unlike", w2))

/-- `checkLikeStatus` (feedService.js lines 185-198): trim the id, require the
feed to exist, return the like-pair membership. -/
def checkLikeStatus (firebase_uid feed_id : String) (w : World) :
    Except String Bool × World :=
  withHandle "checking like status" (
    let fid := (jsTrim feed_id)
    let w1 := addTrace w [Event.storeCall "getFeedById"]
    match Store.getFeed w.store fid with
    | none => (Except.error "Feed not found", w1)
    | some _ =>
      (Except.ok (Store.checkLikeStatus w1.store firebase_uid fid),
       addTrace w1 [Event.storeCall "checkLikeStatus"]))

/-- `getLikeCount` (feedService.js lines 201-226): trim the id; on a truthy
cache hit return the parsed integer at once; on a miss require the feed to
exist, count likes in the Store, populate the cache with a 600 s TTL
(fire-and-forget: `setexOk` says whether that non-awaited call succeeds) and
return the count. -/
def getLikeCount (feed_id : String) (setexOk : Bool) (w : World) :
    Except String JsNum × World :=
  withHandle "getting like count" (
    let fid := (jsTrim feed_id)
    let cached := cacheLookup w.cache (likeCountKey fid)
    let w1 := addTrace w [Event.cacheGet (likeCountKey fid)]
    if truthy cached then
      (Except.ok (parseInt10 (cached.getD "")), w1)
    else
      let w2 := addTrace w1 [Event.storeCall "getFeedById"]
      match Store.getFeed w2.store fid with
      | none => (Except.error "Feed not found", w2)
      | some _ =>
        let n := Store.getLikeCount w2.store fid
        let w3 := addTrace w2 [Event.storeCall "getLikeCount"]
        let w4 := { addTrace w3 [Event.cacheSetex (likeCountKey fid) 600 (toString n)] with
                      cache := if setexOk then cacheSet w3.cache (likeCountKey fid) 600 (toString n)
                               else w3.cache }
        (Except.ok (JsNum.num n), w4))

/-- `getCommentCount` (feedService.js lines 229-254): same cache-aside
algorithm as `getLikeCount`, for the comment counter. -/
def getCommentCount (feed_id : String) (setexOk : Bool) (w : World) :
    Except String JsNum × World :=
  withHandle "getting comment count" (
    let fid := (jsTrim feed_id)
    let cached := cacheLookup w.cache (commentCountKey fid)
    let w1 := addTrace w [Event.cacheGet (commentCountKey fid)]
    if truthy cached then
      (Except.ok (parseInt10 (cached.getD "")), w1)
    else
      let w2 := addTrace w1 [Event.storeCall "getFeedById"]
      match Store.getFeed w2.store fid with
      | none => (Except.error "Feed not found", w2)
      | some _ =>
        let n := Store.getCommentCount w2.store fid
        let w3 := addTrace w2 [Event.storeCall "getCommentCount"]
        let w4 := { addTrace w3 [Event.cacheSetex (commentCountKey fid) 600 (toString n)] with
                      cache := if setexOk then cacheSet w3.cache (commentCountKey fid) 600 (toString n)
                               else w3.cache }
        (Except.ok (JsNum.num n), w4))

/-- A concrete world for instantiating the theorems: one feed `f1` by author
`u1` with two images, one like by `u2`, three comments, empty cache. -/
def demoWorld : World :=
  { store := { nextId := 2, nextImageId := 5,
               feeds := [("f1", { firebase_uid := "u1", description := "hello" })],
               images := [{ feed_id := "f1", image_id := "a", url := "a.jpg" },
                          { feed_id := "f1", image_id := "b", url := "b.jpg" }],
               likes := [("u2", "f1")],
               commentCounts := [("f1", 3)] },
    cache := [], log := [], trace := [] }

/-- The same world with both counter cache keys of `f1` populated. -/
def demoWorldCached : World :=
  { demoWorld with
      cache := [{ key := "feed:f1:likeCount", ttl := 600, value := "7" },
                { key := "feed:f1:commentCount", ttl := 600, value := "4" }] }

/-! ## Helper lemmas about the Cache model -/

theorem cacheLookup_delete_self (c : List CacheEntry) (k : String) :
    cacheLookup (cacheDelete c k) k = none := by
  induction c with
  | nil => rfl
  | cons e t ih =>
    simp only [cacheDelete] at ih ⊢
    by_cases h : e.key = k
    · rw [List.filter_cons_of_neg (by simp [h])]
      exact ih
    · rw [List.filter_cons_of_pos (by simp [h])]
      simp only [cacheLookup] at ih ⊢
      rw [List.find?_cons_of_neg _ (by simp [h])]
      exact ih

theorem cacheLookup_delete_other (c : List CacheEntry) (k k2 : String) (h : k ≠ k2) :
    cacheLookup (cacheDelete c k2) k = cacheLookup c k := by
  induction c with
  | nil => rfl
  | cons e t ih =>
    simp only [cacheDelete] at ih ⊢
    by_cases he : e.key = k2
    · have hek : e.key ≠ k := fun hh => h (hh ▸ he)
      rw [List.filter_cons_of_neg (by simp [he]), ih]
      simp only [cacheLookup]
      rw [List.find?_cons_of_neg _ (by simp [hek])]
    · rw [List.filter_cons_of_pos (by simp [he])]
      simp only [cacheLookup] at ih ⊢
      by_cases hek : e.key = k
      · rw [List.find?_cons_of_pos _ (by simp [hek]), List.find?_cons_of_pos _ (by simp [hek])]
      · rw [List.find?_cons_of_neg _ (by simp [hek]), List.find?_cons_of_neg _ (by simp [hek])]
        exact ih

theorem likeCountKey_ne_commentCountKey (fid : String) :
    likeCountKey fid ≠ commentCountKey fid := by
  intro h
  have h2 := congrArg String.length h
  simp only [likeCountKey, commentCountKey, String.length_append] at h2
  have hl : String.length ":likeCount" = 10 := by decide
  have hc : String.length ":commentCount" = 13 := by decide
  omega

/-- C1: every successful mutation that can make cached counters stale —
createFeed (for the returned id), updateFeed, deleteFeed, likeFeed,
unlikeFeed — deletes the corresponding counter cache key(s) of the feed
before returning, leaving them absent from the Cache, so a later
getLikeCount/getCommentCount cannot be served a value cached strictly
before the mutation. -/
theorem C1_mutations_invalidate_counter_cache :
    (∀ uid desc imgs w fid, (createFeed uid desc imgs w).1 = Except.ok fid →
      cacheLookup (createFeed uid desc imgs w).2.cache (likeCountKey fid) = none ∧
      cacheLookup (createFeed uid desc imgs w).2.cache (commentCountKey fid) = none) ∧
    (∀ fida uid desc w r, (updateFeed fida uid desc w).1 = Except.ok r →
      cacheLookup (updateFeed fida uid desc w).2.cache (likeCountKey (jsTrim fida)) = none ∧
      cacheLookup (updateFeed fida uid desc w).2.cache (commentCountKey (jsTrim fida)) = none) ∧
    (∀ fida uid w r, (deleteFeed fida uid w).1 = Except.ok r →
      cacheLookup (deleteFeed fida uid w).2.cache (likeCountKey (jsTrim fida)) = none ∧
      cacheLookup (deleteFeed fida uid w).2.cache (commentCountKey (jsTrim fida)) = none) ∧
    (∀ uid fida w r, (likeFeed uid fida w).1 = Except.ok r →
      cacheLookup (likeFeed uid fida w).2.cache (likeCountKey (jsTrim fida)) = none) ∧
    (∀ uid fida w r, (unlikeFeed uid fida w).1 = Except.ok r →
      cacheLookup (unlikeFeed uid fida w).2.cache (likeCountKey (jsTrim fida)) = none) := by
  refine ⟨?_, ?_, ?_, ?_, ?_⟩
  · intro uid desc imgs w fid h
    simp only [createFeed, withHandle, addTrace] at h ⊢
    simp only [Except.ok.injEq] at h
    subst h
    constructor
    · rw [apply_ite World.cache]
      simp only [ite_self]
      rw [cacheLookup_delete_other _ _ _ (likeCountKey_ne_commentCountKey _),
        cacheLookup_delete_self]
    · rw [apply_ite World.cache]
      simp only [ite_self]
      rw [cacheLookup_delete_self]
  · intro fida uid desc w r h
    cases hf : Store.getFeed w.store (jsTrim fida) with
    | none => simp [updateFeed, withHandle, hf] at h
    | some feed =>
      by_cases ha : (feed.firebase_uid != uid) = true
      · simp [updateFeed, withHandle, addTrace, hf, ha] at h
      · simp only [updateFeed, withHandle, addTrace, hf, ha, if_neg, Bool.not_eq_true] at h ⊢
        constructor
        · rw [cacheLookup_delete_other _ _ _ (likeCountKey_ne_commentCountKey _),
            cacheLookup_delete_self]
        · rw [cacheLookup_delete_self]
  · intro fida uid w r h
    cases hf : Store.getFeed w.store (jsTrim fida) with
    | none => simp [deleteFeed, withHandle, hf] at h
    | some feed =>
      by_cases ha : (feed.firebase_uid != uid) = true
      · simp [deleteFeed, withHandle, addTrace, hf, ha] at h
      · simp only [deleteFeed, withHandle, addTrace, hf, ha, if_neg, Bool.not_eq_true] at h ⊢
        constructor
        · rw [cacheLookup_delete_other _ _ _ (likeCountKey_ne_commentCountKey _),
            cacheLookup_delete_self]
        · rw [cacheLookup_delete_self]
  · intro uid fida w r h
    cases hf : Store.getFeed w.store (jsTrim fida) with
    | none => simp [likeFeed, withHandle, hf] at h
    | some feed =>
      by_cases hl : Store.checkLikeStatus w.store uid (jsTrim fida) = true
      · simp [likeFeed, withHandle, addTrace, hf, hl] at h
      · simp only [likeFeed, withHandle, addTrace, hf, hl, if_neg, Bool.not_eq_true] at h ⊢
        rw [cacheLookup_delete_self]
  · intro uid fida w r h
    cases hf : Store.getFeed w.store (jsTrim fida) with
    | none => simp [unlikeFeed, withHandle, hf] at h
    | some feed =>
      by_cases hl : Store.checkLikeStatus w.store uid (jsTrim fida) = true
      · simp only [unlikeFeed, withHandle, addTrace, hf, hl, if_pos] at h ⊢
        rw [cacheLookup_delete_self]
      · simp [unlikeFeed, withHandle, addTrace, hf, hl] at h

/-- C1 witness: concrete instances of all five mutations on `demoWorld`. -/
theorem C1_mutations_invalidate_counter_cache_witness :
    cacheLookup (createFeed "u9" "d" (some ["x.jpg"]) demoWorld).2.cache (likeCountKey "f2") = none ∧
    cacheLookup (updateFeed "f1" "u1" "x" demoWorld).2.cache (likeCountKey (jsTrim "f1")) = none ∧
    cacheLookup (deleteFeed "f1" "u1" demoWorld).2.cache (commentCountKey (jsTrim "f1")) = none ∧
    cacheLookup (likeFeed "u3" "f1" demoWorld).2.cache (likeCountKey (jsTrim "f1")) = none ∧
    cacheLookup (unlikeFeed "u2" "f1" demoWorld).2.cache (likeCountKey (jsTrim "f1")) = none := by
  refine ⟨(C1_mutations_invalidate_counter_cache.1 "u9" "d" (some ["x.jpg"]) demoWorld "f2" (by rfl)).1,
    (C1_mutations_invalidate_counter_cache.2.1 "f1" "u1" "x" demoWorld
      (some { firebase_uid := "u1", description := "x" }) (by rfl)).1,
    (C1_mutations_invalidate_counter_cache.2.2.1 "f1" "u1" demoWorld true (by rfl)).2,
    C1_mutations_invalidate_counter_cache.2.2.2.1 "u3" "f1" demoWorld true (by rfl),
    C1_mutations_invalidate_counter_cache.2.2.2.2 "u2" "f1" demoWorld true (by rfl)⟩

/-- C2: every feed mutation (updateFeed, deleteFeed, updateFeedImage,
deleteFeedImage) fails with Permission denied when the feed exists but the
acting identity differs from the author, and with Feed not found when the
feed does not exist; in both cases the Store is left unchanged. -/
theorem C2_authorization_gate_rejects_without_store_mutation :
    (∀ fida uid desc w feed, Store.getFeed w.store (jsTrim fida) = some feed →
        feed.firebase_uid ≠ uid →
        (updateFeed fida uid desc w).1 = Except.error "Permission denied" ∧
        (updateFeed fida uid desc w).2.store = w.store) ∧
    (∀ fida uid desc w, Store.getFeed w.store (jsTrim fida) = none →
        (updateFeed fida uid desc w).1 = Except.error "Feed not found" ∧
        (updateFeed fida uid desc w).2.store = w.store) ∧
    (∀ fida uid w feed, Store.getFeed w.store (jsTrim fida) = some feed →
        feed.firebase_uid ≠ uid →
        (deleteFeed fida uid w).1 = Except.error "Permission denied" ∧
        (deleteFeed fida uid w).2.store = w.store) ∧
    (∀ fida uid w, Store.getFeed w.store (jsTrim fida) = none →
        (deleteFeed fida uid w).1 = Except.error "Feed not found" ∧
        (deleteFeed fida uid w).2.store = w.store) ∧
    (∀ uid fida iid url w feed, Store.getFeed w.store fida = some feed →
        feed.firebase_uid ≠ uid →
        (updateFeedImage uid fida iid url w).1 = Except.error "Permission denied" ∧
        (updateFeedImage uid fida iid url w).2.store = w.store) ∧
    (∀ uid fida iid url w, Store.getFeed w.store fida = none →
        (updateFeedImage uid fida iid url w).1 = Except.error "Feed not found" ∧
        (updateFeedImage uid fida iid url w).2.store = w.store) ∧
    (∀ uid fida iid w feed, Store.getFeed w.store fida = some feed →
        feed.firebase_uid ≠ uid →
        (deleteFeedImage uid fida iid w).1 = Except.error "Permission denied" ∧
        (deleteFeedImage uid fida iid w).2.store = w.store) ∧
    (∀ uid fida iid w, Store.getFeed w.store fida = none →
        (deleteFeedImage uid fida iid w).1 = Except.error "Feed not found" ∧
        (deleteFeedImage uid fida iid w).2.store = w.store) := by
  refine ⟨?_, ?_, ?_, ?_, ?_, ?_, ?_, ?_⟩
  · intro fida uid desc w feed hf hne
    have ha : (feed.firebase_uid != uid) = true := by simp [hne]
    simp [updateFeed, withHandle, addTrace, hf, ha]
  · intro fida uid desc w hf
    simp [updateFeed, withHandle, addTrace, hf]
  · intro fida uid w feed hf hne
    have ha : (feed.firebase_uid != uid) = true := by simp [hne]
    simp [deleteFeed, withHandle, addTrace, hf, ha]
  · intro fida uid w hf
    simp [deleteFeed, withHandle, addTrace, hf]
  · intro uid fida iid url w feed hf hne
    have ha : (feed.firebase_uid != uid) = true := by simp [hne]
    simp [updateFeedImage, withHandle, addTrace, hf, ha]
  · intro uid fida iid url w hf
    simp [updateFeedImage, withHandle, addTrace, hf]
  · intro uid fida iid w feed hf hne
    have ha : (feed.firebase_uid != uid) = true := by simp [hne]
    simp [deleteFeedImage, withHandle, addTrace, hf, ha]
  · intro uid fida iid w hf
    simp [deleteFeedImage, withHandle, addTrace, hf]

/-- C2 witness: concrete rejected mutations on `demoWorld` (acting identity
`u2` is not the author `u1`; feed `zzz` does not exist). -/
theorem C2_authorization_gate_witness :
    ((updateFeed "f1" "u2" "x" demoWorld).1 = Except.error "Permission denied" ∧
      (updateFeed "f1" "u2" "x" demoWorld).2.store = demoWorld.store) ∧
    ((updateFeed "zzz" "u2" "x" demoWorld).1 = Except.error "Feed not found" ∧
      (updateFeed "zzz" "u2" "x" demoWorld).2.store = demoWorld.store) ∧
    ((deleteFeed "f1" "u2" demoWorld).1 = Except.error "Permission denied" ∧
      (deleteFeed "f1" "u2" demoWorld).2.store = demoWorld.store) ∧
    ((deleteFeed "zzz" "u2" demoWorld).1 = Except.error "Feed not found" ∧
      (deleteFeed "zzz" "u2" demoWorld).2.store = demoWorld.store) ∧
    ((updateFeedImage "u2" "f1" "a" "c.jpg" demoWorld).1 = Except.error "Permission denied" ∧
      (updateFeedImage "u2" "f1" "a" "c.jpg" demoWorld).2.store = demoWorld.store) ∧
    ((updateFeedImage "u2" "zzz" "a" "c.jpg" demoWorld).1 = Except.error "Feed not found" ∧
      (updateFeedImage "u2" "zzz" "a" "c.jpg" demoWorld).2.store = demoWorld.store) ∧
    ((deleteFeedImage "u2" "f1" "a" demoWorld).1 = Except.error "Permission denied" ∧
      (deleteFeedImage "u2" "f1" "a" demoWorld).2.store = demoWorld.store) ∧
    ((deleteFeedImage "u2" "zzz" "a" demoWorld).1 = Except.error "Feed not found" ∧
      (deleteFeedImage "u2" "zzz" "a" demoWorld).2.store = demoWorld.store) := by
  refine ⟨?_, ?_, ?_, ?_, ?_, ?_, ?_, ?_⟩
  · exact C2_authorization_gate_rejects_without_store_mutation.1 "f1" "u2" "x" demoWorld
      { firebase_uid := "u1", description := "hello" } (by rfl) (by decide)
  · exact C2_authorization_gate_rejects_without_store_mutation.2.1 "zzz" "u2" "x" demoWorld (by rfl)
  · exact C2_authorization_gate_rejects_without_store_mutation.2.2.1 "f1" "u2" demoWorld
      { firebase_uid := "u1", description := "hello" } (by rfl) (by decide)
  · exact C2_authorization_gate_rejects_without_store_mutation.2.2.2.1 "zzz" "u2" demoWorld (by rfl)
  · exact C2_authorization_gate_rejects_without_store_mutation.2.2.2.2.1 "u2" "f1" "a" "c.jpg" demoWorld
      { firebase_uid := "u1", description := "hello" } (by rfl) (by decide)
  · exact C2_authorization_gate_rejects_without_store_mutation.2.2.2.2.2.1 "u2" "zzz" "a" "c.jpg" demoWorld (by rfl)
  · exact C2_authorization_gate_rejects_without_store_mutation.2.2.2.2.2.2.1 "u2" "f1" "a" demoWorld
      { firebase_uid := "u1", description := "hello" } (by rfl) (by decide)
  · exact C2_authorization_gate_rejects_without_store_mutation.2.2.2.2.2.2.2 "u2" "zzz" "a" demoWorld (by rfl)

/-- C3: on a present, non-empty cached counter value, getLikeCount and
getCommentCount return that value parsed as a base-10 integer, leave Store
and Cache untouched, and issue no Store call at all (the trace grows by the
single cache get), regardless of whether the feed exists in the Store. -/
theorem C3_cache_hit_skips_store :
    (∀ fida w v ok, cacheLookup w.cache (likeCountKey (jsTrim fida)) = some v → v ≠ "" →
      (getLikeCount fida ok w).1 = Except.ok (parseInt10 v) ∧
      (getLikeCount fida ok w).2.store = w.store ∧
      (getLikeCount fida ok w).2.cache = w.cache ∧
      (getLikeCount fida ok w).2.trace =
        w.trace ++ [Event.cacheGet (likeCountKey (jsTrim fida))]) ∧
    (∀ fida w v ok, cacheLookup w.cache (commentCountKey (jsTrim fida)) = some v → v ≠ "" →
      (getCommentCount fida ok w).1 = Except.ok (parseInt10 v) ∧
      (getCommentCount fida ok w).2.store = w.store ∧
      (getCommentCount fida ok w).2.cache = w.cache ∧
      (getCommentCount fida ok w).2.trace =
        w.trace ++ [Event.cacheGet (commentCountKey (jsTrim fida))]) := by
  constructor
  · intro fida w v ok hm hv
    have hb : (v != "") = true := by simp [hv]
    simp [getLikeCount, withHandle, addTrace, truthy, hm, hb]
  · intro fida w v ok hm hv
    have hb : (v != "") = true := by simp [hv]
    simp [getCommentCount, withHandle, addTrace, truthy, hm, hb]

/-- C3 witness: cache hits on `demoWorldCached`, whose Store does contain
`f1`; the same values are returned on a Store from which the feed has been
deleted. -/
theorem C3_cache_hit_skips_store_witness :
    (getLikeCount "f1" true demoWorldCached).1 = Except.ok (parseInt10 "7") ∧
    (getCommentCount "f1" true demoWorldCached).1 = Except.ok (parseInt10 "4") := by
  exact ⟨(C3_cache_hit_skips_store.1 "f1" demoWorldCached "7" true (by rfl) (by decide)).1,
    (C3_cache_hit_skips_store.2 "f1" demoWorldCached "4" true (by rfl) (by decide)).1⟩

/-- C4: on a cache miss for a feed that is not in the Store, getLikeCount and
getCommentCount fail with Feed not found, write nothing into the Cache (no
setex is issued: the trace grows only by the cache get and the feed fetch). -/
theorem C4_miss_nonexistent_feed_not_cached :
    (∀ fida w ok, truthy (cacheLookup w.cache (likeCountKey (jsTrim fida))) = false →
      Store.getFeed w.store (jsTrim fida) = none →
      (getLikeCount fida ok w).1 = Except.error "Feed not found" ∧
      (getLikeCount fida ok w).2.cache = w.cache ∧
      (getLikeCount fida ok w).2.trace =
        w.trace ++ [Event.cacheGet (likeCountKey (jsTrim fida)), Event.storeCall "getFeedById"]) ∧
    (∀ fida w ok, truthy (cacheLookup w.cache (commentCountKey (jsTrim fida))) = false →
      Store.getFeed w.store (jsTrim fida) = none →
      (getCommentCount fida ok w).1 = Except.error "Feed not found" ∧
      (getCommentCount fida ok w).2.cache = w.cache ∧
      (getCommentCount fida ok w).2.trace =
        w.trace ++ [Event.cacheGet (commentCountKey (jsTrim fida)), Event.storeCall "getFeedById"]) := by
  constructor
  · intro fida w ok hmiss hf
    simp [getLikeCount, withHandle, addTrace, hmiss, hf]
  · intro fida w ok hmiss hf
    simp [getCommentCount, withHandle, addTrace, hmiss, hf]

/-- C4 witness: feed `zzz` does not exist in `demoWorld` and its cache is
empty. -/
theorem C4_miss_nonexistent_feed_not_cached_witness :
    (getLikeCount "zzz" true demoWorld).1 = Except.error "Feed not found" ∧
    (getLikeCount "zzz" true demoWorld).2.cache = demoWorld.cache ∧
    (getCommentCount "zzz" true demoWorld).1 = Except.error "Feed not found" := by
  refine ⟨(C4_miss_nonexistent_feed_not_cached.1 "zzz" demoWorld true (by rfl) (by rfl)).1,
    (C4_miss_nonexistent_feed_not_cached.1 "zzz" demoWorld true (by rfl) (by rfl)).2.1,
    (C4_miss_nonexistent_feed_not_cached.2 "zzz" demoWorld true (by rfl) (by rfl)).1⟩

/-- C5: on a cache miss for an existing feed, getLikeCount and
getCommentCount compute the authoritative count from the Store, populate the
Cache under the kind-specific key with a 600-second TTL, and return the
count; a failure of the fire-and-forget cache population (setexOk = false)
leaves the returned result unchanged. -/
theorem C5_miss_existing_feed_populates_cache :
    (∀ fida w feed ok, truthy (cacheLookup w.cache (likeCountKey (jsTrim fida))) = false →
      Store.getFeed w.store (jsTrim fida) = some feed →
      (getLikeCount fida ok w).1 =
        Except.ok (JsNum.num (Store.getLikeCount w.store (jsTrim fida))) ∧
      (getLikeCount fida true w).2.cache =
        cacheSet w.cache (likeCountKey (jsTrim fida)) 600
          (toString (Store.getLikeCount w.store (jsTrim fida))) ∧
      (getLikeCount fida false w).2.cache = w.cache) ∧
    (∀ fida w feed ok, truthy (cacheLookup w.cache (commentCountKey (jsTrim fida))) = false →
      Store.getFeed w.store (jsTrim fida) = some feed →
      (getCommentCount fida ok w).1 =
        Except.ok (JsNum.num (Store.getCommentCount w.store (jsTrim fida))) ∧
      (getCommentCount fida true w).2.cache =
        cacheSet w.cache (commentCountKey (jsTrim fida)) 600
          (toString (Store.getCommentCount w.store (jsTrim fida))) ∧
      (getCommentCount fida false w).2.cache = w.cache) := by
  constructor
  · intro fida w feed ok hmiss hf
    refine ⟨?_, ?_, ?_⟩ <;> simp [getLikeCount, withHandle, addTrace, hmiss, hf]
  · intro fida w feed ok hmiss hf
    refine ⟨?_, ?_, ?_⟩ <;> simp [getCommentCount, withHandle, addTrace, hmiss, hf]

/-- C5 witness: miss on `demoWorld` for existing feed `f1` (one like, three
comments). -/
theorem C5_miss_existing_feed_populates_cache_witness :
    (getLikeCount "f1" true demoWorld).1 = Except.ok (JsNum.num 1) ∧
    (getLikeCount "f1" true demoWorld).2.cache =
      cacheSet demoWorld.cache (likeCountKey (jsTrim "f1")) 600 "1" ∧
    (getCommentCount "f1" false demoWorld).1 = Except.ok (JsNum.num 3) ∧
    (getCommentCount "f1" false demoWorld).2.cache = demoWorld.cache := by
  refine ⟨?_, ?_, ?_, ?_⟩
  · exact (C5_miss_existing_feed_populates_cache.1 "f1" demoWorld
      { firebase_uid := "u1", description := "hello" } true (by rfl) (by rfl)).1
  · exact (C5_miss_existing_feed_populates_cache.1 "f1" demoWorld
      { firebase_uid := "u1", description := "hello" } true (by rfl) (by rfl)).2.1
  · exact (C5_miss_existing_feed_populates_cache.2 "f1" demoWorld
      { firebase_uid := "u1", description := "hello" } false (by rfl) (by rfl)).1
  · exact (C5_miss_existing_feed_populates_cache.2 "f1" demoWorld
      { firebase_uid := "u1", description := "hello" } false (by rfl) (by rfl)).2.2

/-- Erasing at most one element can lower a filtered count by at most one. -/
theorem length_filter_le_length_filter_eraseP_succ {α : Type} (l : List α) (p q : α → Bool) :
    (l.filter q).length ≤ ((l.eraseP p).filter q).length + 1 := by
  induction l with
  | nil => simp
  | cons a t ih =>
    by_cases hp : p a = true
    · rw [List.eraseP_cons_of_pos hp]
      by_cases hq : q a = true
      · rw [List.filter_cons_of_pos hq]
        simp
      · rw [List.filter_cons_of_neg (by simp [hq])]
        exact Nat.le_succ_of_le (Nat.le_refl _)
    · rw [List.eraseP_cons_of_neg (by simp [hp])]
      by_cases hq : q a = true
      · rw [List.filter_cons_of_pos hq, List.filter_cons_of_pos hq]
        simpa using ih
      · rw [List.filter_cons_of_neg (by simp [hq]), List.filter_cons_of_neg (by simp [hq])]
        exact ih

/-- C6: for an existing feed whose author is acting, deleteFeedImage rejects
with the last-image InvariantViolation whenever the current image count is at
most 1, leaving the Store unchanged; when the count is at least 2 the
deletion goes through and the feed keeps at least one image. -/
theorem C6_last_image_floor :
    (∀ uid fida iid w feed, Store.getFeed w.store fida = some feed →
        feed.firebase_uid = uid →
        Store.getFeedImageCount w.store fida ≤ 1 →
        (deleteFeedImage uid fida iid w).1 =
          Except.error "Can\x27t delete last image, need at least one image" ∧
        (deleteFeedImage uid fida iid w).2.store = w.store) ∧
    (∀ uid fida iid w feed, Store.getFeed w.store fida = some feed →
        feed.firebase_uid = uid →
        2 ≤ Store.getFeedImageCount w.store fida →
        (deleteFeedImage uid fida iid w).1 = Except.ok true ∧
        1 ≤ Store.getFeedImageCount (deleteFeedImage uid fida iid w).2.store fida) := by
  constructor
  · intro uid fida iid w feed hf hu hc
    have ha : (feed.firebase_uid != uid) = false := by simp [hu]
    simp [deleteFeedImage, withHandle, addTrace, hf, ha, hc]
  · intro uid fida iid w feed hf hu hc
    have ha : (feed.firebase_uid != uid) = false := by simp [hu]
    have hc2 : ¬ Store.getFeedImageCount w.store fida ≤ 1 := by omega
    constructor
    · simp [deleteFeedImage, withHandle, addTrace, hf, ha, hc2]
    · have hpost : Store.getFeedImageCount w.store fida ≤
          Store.getFeedImageCount (Store.deleteFeedImage w.store fida iid) fida + 1 := by
        simpa [Store.getFeedImageCount, Store.deleteFeedImage] using
          length_filter_le_length_filter_eraseP_succ w.store.images
            (fun im => im.feed_id == fida && im.image_id == iid)
            (fun im => im.feed_id == fida)
      have hw : (deleteFeedImage uid fida iid w).2.store =
          Store.deleteFeedImage w.store fida iid := by
        simp [deleteFeedImage, withHandle, addTrace, hf, ha, hc2]
      rw [hw]
      omega

/-- C6 witness: on `demoWorld` feed `f1` has two images; deleting one
succeeds and leaves one image, after which deleting the last image is
rejected (shown on the world whose Store has only image `b` left). -/
theorem C6_last_image_floor_witness :
    ((deleteFeedImage "u1" "f1" "a" demoWorld).1 = Except.ok true ∧
      1 ≤ Store.getFeedImageCount (deleteFeedImage "u1" "f1" "a" demoWorld).2.store "f1") ∧
    (deleteFeedImage "u1" "f1" "b"
        { demoWorld with store := { demoWorld.store with
            images := [{ feed_id := "f1", image_id := "b", url := "b.jpg" }] } }).1 =
      Except.error "Can\x27t delete last image, need at least one image" := by
  refine ⟨C6_last_image_floor.2 "u1" "f1" "a" demoWorld
      { firebase_uid := "u1", description := "hello" } (by rfl) (by rfl) (by decide), ?_⟩
  exact (C6_last_image_floor.1 "u1" "f1" "b"
      { demoWorld with store := { demoWorld.store with
          images := [{ feed_id := "f1", image_id := "b", url := "b.jpg" }] } }
      { firebase_uid := "u1", description := "hello" } (by rfl) (by rfl) (by decide)).1

/-- Creating a like makes the pair present. -/
theorem checkLikeStatus_after_like (s : Store) (uid fid : String) :
    Store.checkLikeStatus (Store.likeFeed s uid fid) uid fid = true := by
  simp [Store.checkLikeStatus, Store.likeFeed]

/-- Deleting a like makes the pair absent. -/
theorem checkLikeStatus_after_unlike (s : Store) (uid fid : String) :
    Store.checkLikeStatus (Store.unlikeFeed s uid fid) uid fid = false := by
  simp [Store.checkLikeStatus, Store.unlikeFeed, List.mem_filter]

/-- Like mutations do not touch the feeds table. -/
theorem getFeed_likeFeed (s : Store) (uid fid id : String) :
    Store.getFeed (Store.likeFeed s uid fid) id = Store.getFeed s id := rfl

/-- Unlike mutations do not touch the feeds table. -/
theorem getFeed_unlikeFeed (s : Store) (uid fid id : String) :
    Store.getFeed (Store.unlikeFeed s uid fid) id = Store.getFeed s id := rfl

/-- C7: likeFeed succeeds exactly from the NOT_LIKED state and unlikeFeed
exactly from the LIKED state; the failing transitions report Already
liked/Not liked and leave the Store unchanged, a missing feed reports Feed
not found, and two consecutive likes (resp. unlikes) have the first succeed
and the second fail. -/
theorem C7_like_unlike_state_machine :
    (∀ uid fida w feed, Store.getFeed w.store (jsTrim fida) = some feed →
        Store.checkLikeStatus w.store uid (jsTrim fida) = false →
        (likeFeed uid fida w).1 = Except.ok true ∧
        Store.checkLikeStatus (likeFeed uid fida w).2.store uid (jsTrim fida) = true) ∧
    (∀ uid fida w feed, Store.getFeed w.store (jsTrim fida) = some feed →
        Store.checkLikeStatus w.store uid (jsTrim fida) = true →
        (likeFeed uid fida w).1 = Except.error "Already liked this feed" ∧
        (likeFeed uid fida w).2.store = w.store) ∧
    (∀ uid fida w, Store.getFeed w.store (jsTrim fida) = none →
        (likeFeed uid fida w).1 = Except.error "Feed not found") ∧
    (∀ uid fida w feed, Store.getFeed w.store (jsTrim fida) = some feed →
        Store.checkLikeStatus w.store uid (jsTrim fida) = true →
        (unlikeFeed uid fida w).1 = Except.ok true ∧
        Store.checkLikeStatus (unlikeFeed uid fida w).2.store uid (jsTrim fida) = false) ∧
    (∀ uid fida w feed, Store.getFeed w.store (jsTrim fida) = some feed →
        Store.checkLikeStatus w.store uid (jsTrim fida) = false →
        (unlikeFeed uid fida w).1 = Except.error "Not liked this feed before, cannot unlike" ∧
        (unlikeFeed uid fida w).2.store = w.store) ∧
    (∀ uid fida w, Store.getFeed w.store (jsTrim fida) = none →
        (unlikeFeed uid fida w).1 = Except.error "Feed not found") ∧
    (∀ uid fida w feed, Store.getFeed w.store (jsTrim fida) = some feed →
        Store.checkLikeStatus w.store uid (jsTrim fida) = false →
        (likeFeed uid fida w).1 = Except.ok true ∧
        (likeFeed uid fida (likeFeed uid fida w).2).1 =
          Except.error "Already liked this feed") ∧
    (∀ uid fida w feed, Store.getFeed w.store (jsTrim fida) = some feed →
        Store.checkLikeStatus w.store uid (jsTrim fida) = true →
        (unlikeFeed uid fida w).1 = Except.ok true ∧
        (unlikeFeed uid fida (unlikeFeed uid fida w).2).1 =
          Except.error "Not liked this feed before, cannot unlike") := by
  have hlike : ∀ uid fida w feed, Store.getFeed w.store (jsTrim fida) = some feed →
      Store.checkLikeStatus w.store uid (jsTrim fida) = false →
      (likeFeed uid fida w).1 = Except.ok true ∧
      (likeFeed uid fida w).2.store = Store.likeFeed w.store uid (jsTrim fida) := by
    intro uid fida w feed hf hl
    constructor <;> simp [likeFeed, withHandle, addTrace, hf, hl]
  have hunlike : ∀ uid fida w feed, Store.getFeed w.store (jsTrim fida) = some feed →
      Store.checkLikeStatus w.store uid (jsTrim fida) = true →
      (unlikeFeed uid fida w).1 = Except.ok true ∧
      (unlikeFeed uid fida w).2.store = Store.unlikeFeed w.store uid (jsTrim fida) := by
    intro uid fida w feed hf hl
    constructor <;> simp [unlikeFeed, withHandle, addTrace, hf, hl]
  refine ⟨?_, ?_, ?_, ?_, ?_, ?_, ?_, ?_⟩
  · intro uid fida w feed hf hl
    refine ⟨(hlike uid fida w feed hf hl).1, ?_⟩
    rw [(hlike uid fida w feed hf hl).2]
    exact checkLikeStatus_after_like w.store uid (jsTrim fida)
  · intro uid fida w feed hf hl
    constructor <;> simp [likeFeed, withHandle, addTrace, hf, hl]
  · intro uid fida w hf
    simp [likeFeed, withHandle, addTrace, hf]
  · intro uid fida w feed hf hl
    refine ⟨(hunlike uid fida w feed hf hl).1, ?_⟩
    rw [(hunlike uid fida w feed hf hl).2]
    exact checkLikeStatus_after_unlike w.store uid (jsTrim fida)
  · intro uid fida w feed hf hl
    constructor <;> simp [unlikeFeed, withHandle, addTrace, hf, hl]
  · intro uid fida w hf
    simp [unlikeFeed, withHandle, addTrace, hf]
  · intro uid fida w feed hf hl
    refine ⟨(hlike uid fida w feed hf hl).1, ?_⟩
    have hw := (hlike uid fida w feed hf hl).2
    set w2 := (likeFeed uid fida w).2 with hw2
    have hf2 : Store.getFeed w2.store (jsTrim fida) = some feed := by
      rw [hw, getFeed_likeFeed]
      exact hf
    have hl2 : Store.checkLikeStatus w2.store uid (jsTrim fida) = true := by
      rw [hw]
      exact checkLikeStatus_after_like w.store uid (jsTrim fida)
    simp [likeFeed, withHandle, addTrace, hf2, hl2]
  · intro uid fida w feed hf hl
    refine ⟨(hunlike uid fida w feed hf hl).1, ?_⟩
    have hw := (hunlike uid fida w feed hf hl).2
    set w2 := (unlikeFeed uid fida w).2 with hw2
    have hf2 : Store.getFeed w2.store (jsTrim fida) = some feed := by
      rw [hw, getFeed_unlikeFeed]
      exact hf
    have hl2 : Store.checkLikeStatus w2.store uid (jsTrim fida) = false := by
      rw [hw]
      exact checkLikeStatus_after_unlike w.store uid (jsTrim fida)
    simp [unlikeFeed, withHandle, addTrace, hf2, hl2]

/-- C7 witness: on `demoWorld`, `u2` has liked `f1` and `u3` has not; the
double-like and double-unlike scenarios are instantiated concretely. -/
theorem C7_like_unlike_state_machine_witness :
    ((likeFeed "u3" "f1" demoWorld).1 = Except.ok true ∧
      (likeFeed "u3" "f1" (likeFeed "u3" "f1" demoWorld).2).1 =
        Except.error "Already liked this feed") ∧
    ((unlikeFeed "u2" "f1" demoWorld).1 = Except.ok true ∧
      (unlikeFeed "u2" "f1" (unlikeFeed "u2" "f1" demoWorld).2).1 =
        Except.error "Not liked this feed before, cannot unlike") ∧
    (likeFeed "u3" "zzz" demoWorld).1 = Except.error "Feed not found" ∧
    (unlikeFeed "u2" "zzz" demoWorld).1 = Except.error "Feed not found" := by
  refine ⟨?_, ?_, ?_, ?_⟩
  · exact C7_like_unlike_state_machine.2.2.2.2.2.2.1 "u3" "f1" demoWorld
      { firebase_uid := "u1", description := "hello" } (by rfl) (by rfl)
  · exact C7_like_unlike_state_machine.2.2.2.2.2.2.2 "u2" "f1" demoWorld
      { firebase_uid := "u1", description := "hello" } (by rfl) (by rfl)
  · exact C7_like_unlike_state_machine.2.2.1 "u3" "zzz" demoWorld (by rfl)
  · exact C7_like_unlike_state_machine.2.2.2.2.2.1 "u2" "zzz" demoWorld (by rfl)

/-- C8: whenever any public operation fails, the failure is logged tagged
with the attempted action's name, and the caller receives a generic failure
carrying exactly the original error's message — a single undifferentiated
error channel distinguished only by message text. -/
theorem C8_failures_logged_and_rethrown_with_message :
    (∀ uid desc imgs w msg, (createFeed uid desc imgs w).1 = Except.error msg →
      (createFeed uid desc imgs w).2.log = w.log ++ [errLine "creating feed" msg]) ∧
    (∀ fida w msg, (getFeedById fida w).1 = Except.error msg →
      (getFeedById fida w).2.log = w.log ++ [errLine "retrieving feed" msg]) ∧
    (∀ w msg, (getAllFeeds w).1 = Except.error msg →
      (getAllFeeds w).2.log = w.log ++ [errLine "retrieving feeds" msg]) ∧
    (∀ fida uid desc w msg, (updateFeed fida uid desc w).1 = Except.error msg →
      (updateFeed fida uid desc w).2.log = w.log ++ [errLine "updating feed" msg]) ∧
    (∀ fida uid w msg, (deleteFeed fida uid w).1 = Except.error msg →
      (deleteFeed fida uid w).2.log = w.log ++ [errLine "deleting feed" msg]) ∧
    (∀ uid fida iid url w msg, (updateFeedImage uid fida iid url w).1 = Except.error msg →
      (updateFeedImage uid fida iid url w).2.log = w.log ++ [errLine "updating feed image" msg]) ∧
    (∀ uid fida iid w msg, (deleteFeedImage uid fida iid w).1 = Except.error msg →
      (deleteFeedImage uid fida iid w).2.log = w.log ++ [errLine "deleting feed image" msg]) ∧
    (∀ uid fida w msg, (likeFeed uid fida w).1 = Except.error msg →
      (likeFeed uid fida w).2.log = w.log ++ [errLine "liking feed" msg]) ∧
    (∀ uid fida w msg, (unlikeFeed uid fida w).1 = Except.error msg →
      (unlikeFeed uid fida w).2.log = w.log ++ [errLine "unliking feed" msg]) ∧
    (∀ uid fida w msg, (checkLikeStatus uid fida w).1 = Except.error msg →
      (checkLikeStatus uid fida w).2.log = w.log ++ [errLine "checking like status" msg]) ∧
    (∀ fida ok w msg, (getLikeCount fida ok w).1 = Except.error msg →
      (getLikeCount fida ok w).2.log = w.log ++ [errLine "getting like count" msg]) ∧
    (∀ fida ok w msg, (getCommentCount fida ok w).1 = Except.error msg →
      (getCommentCount fida ok w).2.log = w.log ++ [errLine "getting comment count" msg]) := by
  refine ⟨?_, ?_, ?_, ?_, ?_, ?_, ?_, ?_, ?_, ?_, ?_, ?_⟩
  · intro uid desc imgs w msg h
    simp [createFeed, withHandle, addTrace] at h
  · intro fida w msg h
    simp [getFeedById, withHandle, addTrace] at h
  · intro w msg h
    simp [getAllFeeds, withHandle, addTrace] at h
  · intro fida uid desc w msg h
    cases hf : Store.getFeed w.store (jsTrim fida) with
    | none =>
      simp [updateFeed, withHandle, addTrace, hf] at h ⊢
      subst h
      rfl
    | some feed =>
      by_cases ha : (feed.firebase_uid != uid) = true
      · simp [updateFeed, withHandle, addTrace, hf, ha] at h ⊢
        subst h
        rfl
      · simp [updateFeed, withHandle, addTrace, hf, ha] at h
  · intro fida uid w msg h
    cases hf : Store.getFeed w.store (jsTrim fida) with
    | none =>
      simp [deleteFeed, withHandle, addTrace, hf] at h ⊢
      subst h
      rfl
    | some feed =>
      by_cases ha : (feed.firebase_uid != uid) = true
      · simp [deleteFeed, withHandle, addTrace, hf, ha] at h ⊢
        subst h
        rfl
      · simp [deleteFeed, withHandle, addTrace, hf, ha] at h
  · intro uid fida iid url w msg h
    cases hf : Store.getFeed w.store fida with
    | none =>
      simp [updateFeedImage, withHandle, addTrace, hf] at h ⊢
      subst h
      rfl
    | some feed =>
      by_cases ha : (feed.firebase_uid != uid) = true
      · simp [updateFeedImage, withHandle, addTrace, hf, ha] at h ⊢
        subst h
        rfl
      · simp [updateFeedImage, withHandle, addTrace, hf, ha] at h
  · intro uid fida iid w msg h
    cases hf : Store.getFeed w.store fida with
    | none =>
      simp [deleteFeedImage, withHandle, addTrace, hf] at h ⊢
      subst h
      rfl
    | some feed =>
      by_cases ha : (feed.firebase_uid != uid) = true
      · simp [deleteFeedImage, withHandle, addTrace, hf, ha] at h ⊢
        subst h
        rfl
      · by_cases hc : Store.getFeedImageCount w.store fida ≤ 1
        · simp [deleteFeedImage, withHandle, addTrace, hf, ha, hc] at h ⊢
          subst h
          rfl
        · simp [deleteFeedImage, withHandle, addTrace, hf, ha, hc] at h
  · intro uid fida w msg h
    cases hf : Store.getFeed w.store (jsTrim fida) with
    | none =>
      simp [likeFeed, withHandle, addTrace, hf] at h ⊢
      subst h
      rfl
    | some feed =>
      by_cases hl : Store.checkLikeStatus w.store uid (jsTrim fida) = true
      · simp [likeFeed, withHandle, addTrace, hf, hl] at h ⊢
        subst h
        rfl
      · simp [likeFeed, withHandle, addTrace, hf, hl] at h
  · intro uid fida w msg h
    cases hf : Store.getFeed w.store (jsTrim fida) with
    | none =>
      simp [unlikeFeed, withHandle, addTrace, hf] at h ⊢
      subst h
      rfl
    | some feed =>
      by_cases hl : Store.checkLikeStatus w.store uid (jsTrim fida) = true
      · simp [unlikeFeed, withHandle, addTrace, hf, hl] at h
      · simp [unlikeFeed, withHandle, addTrace, hf, hl] at h ⊢
        subst h
        rfl
  · intro uid fida w msg h
    cases hf : Store.getFeed w.store (jsTrim fida) with
    | none =>
      simp [checkLikeStatus, withHandle, addTrace, hf] at h ⊢
      subst h
      rfl
    | some feed =>
      simp [checkLikeStatus, withHandle, addTrace, hf] at h
  · intro fida ok w msg h
    by_cases hm : truthy (cacheLookup w.cache (likeCountKey (jsTrim fida))) = true
    · simp [getLikeCount, withHandle, addTrace, hm] at h
    · have hm2 : truthy (cacheLookup w.cache (likeCountKey (jsTrim fida))) = false := by
        simpa using hm
      cases hf : Store.getFeed w.store (jsTrim fida) with
      | none =>
        simp [getLikeCount, withHandle, addTrace, hm2, hf] at h ⊢
        subst h
        rfl
      | some feed =>
        simp [getLikeCount, withHandle, addTrace, hm2, hf] at h
  · intro fida ok w msg h
    by_cases hm : truthy (cacheLookup w.cache (commentCountKey (jsTrim fida))) = true
    · simp [getCommentCount, withHandle, addTrace, hm] at h
    · have hm2 : truthy (cacheLookup w.cache (commentCountKey (jsTrim fida))) = false := by
        simpa using hm
      cases hf : Store.getFeed w.store (jsTrim fida) with
      | none =>
        simp [getCommentCount, withHandle, addTrace, hm2, hf] at h ⊢
        subst h
        rfl
      | some feed =>
        simp [getCommentCount, withHandle, addTrace, hm2, hf] at h

/-- C8 witness: a permission failure, a not-found failure and a state-machine
failure, each logged with its action tag and its original message. -/
theorem C8_failures_logged_and_rethrown_witness :
    (updateFeed "f1" "u2" "x" demoWorld).2.log =
      demoWorld.log ++ [errLine "updating feed" "Permission denied"] ∧
    (getLikeCount "zzz" true demoWorld).2.log =
      demoWorld.log ++ [errLine "getting like count" "Feed not found"] ∧
    (likeFeed "u2" "f1" demoWorld).2.log =
      demoWorld.log ++ [errLine "liking feed" "Already liked this feed"] := by
  refine ⟨?_, ?_, ?_⟩
  · exact C8_failures_logged_and_rethrown_with_message.2.2.2.1 "f1" "u2" "x" demoWorld
      "Permission denied" (by rfl)
  · exact C8_failures_logged_and_rethrown_with_message.2.2.2.2.2.2.2.2.2.2.1 "zzz" true demoWorld
      "Feed not found" (by rfl)
  · exact C8_failures_logged_and_rethrown_with_message.2.2.2.2.2.2.2.1 "u2" "f1" demoWorld
      "Already liked this feed" (by rfl)

/-- C9: a successful likeFeed or unlikeFeed changes the Cache exactly by
deleting the feed's like-count key: every other key — in particular the
feed's comment-count key and the counters of every other feed — keeps its
previous value. -/
theorem C9_like_unlike_delete_only_like_count_key :
    (∀ uid fida w r, (likeFeed uid fida w).1 = Except.ok r →
      (likeFeed uid fida w).2.cache = cacheDelete w.cache (likeCountKey (jsTrim fida)) ∧
      ∀ k, k ≠ likeCountKey (jsTrim fida) →
        cacheLookup (likeFeed uid fida w).2.cache k = cacheLookup w.cache k) ∧
    (∀ uid fida w r, (unlikeFeed uid fida w).1 = Except.ok r →
      (unlikeFeed uid fida w).2.cache = cacheDelete w.cache (likeCountKey (jsTrim fida)) ∧
      ∀ k, k ≠ likeCountKey (jsTrim fida) →
        cacheLookup (unlikeFeed uid fida w).2.cache k = cacheLookup w.cache k) := by
  constructor
  · intro uid fida w r h
    cases hf : Store.getFeed w.store (jsTrim fida) with
    | none => simp [likeFeed, withHandle, addTrace, hf] at h
    | some feed =>
      by_cases hl : Store.checkLikeStatus w.store uid (jsTrim fida) = true
      · simp [likeFeed, withHandle, addTrace, hf, hl] at h
      · have hc : (likeFeed uid fida w).2.cache =
            cacheDelete w.cache (likeCountKey (jsTrim fida)) := by
          simp [likeFeed, withHandle, addTrace, hf, hl]
        refine ⟨hc, ?_⟩
        intro k hk
        rw [hc]
        exact cacheLookup_delete_other w.cache k _ hk
  · intro uid fida w r h
    cases hf : Store.getFeed w.store (jsTrim fida) with
    | none => simp [unlikeFeed, withHandle, addTrace, hf] at h
    | some feed =>
      by_cases hl : Store.checkLikeStatus w.store uid (jsTrim fida) = true
      · have hc : (unlikeFeed uid fida w).2.cache =
            cacheDelete w.cache (likeCountKey (jsTrim fida)) := by
          simp [unlikeFeed, withHandle, addTrace, hf, hl]
        refine ⟨hc, ?_⟩
        intro k hk
        rw [hc]
        exact cacheLookup_delete_other w.cache k _ hk
      · simp [unlikeFeed, withHandle, addTrace, hf, hl] at h

/-- C9 witness: on `demoWorldCached` (both counter keys present) a like by
`u3` and an unlike by `u2` preserve the comment-count entry. -/
theorem C9_like_unlike_delete_only_like_count_key_witness :
    cacheLookup (likeFeed "u3" "f1" demoWorldCached).2.cache
        (commentCountKey (jsTrim "f1")) =
      cacheLookup demoWorldCached.cache (commentCountKey (jsTrim "f1")) ∧
    cacheLookup (unlikeFeed "u2" "f1" demoWorldCached).2.cache
        (commentCountKey (jsTrim "f1")) =
      cacheLookup demoWorldCached.cache (commentCountKey (jsTrim "f1")) := by
  constructor
  · exact (C9_like_unlike_delete_only_like_count_key.1 "u3" "f1" demoWorldCached true
      (by rfl)).2 (commentCountKey (jsTrim "f1")) (by decide)
  · exact (C9_like_unlike_delete_only_like_count_key.2 "u2" "f1" demoWorldCached true
      (by rfl)).2 (commentCountKey (jsTrim "f1")) (by decide)

/-- C10: feed ids are trimmed by every id-taking operation except
updateFeedImage and deleteFeedImage, which pass the raw id to the Store:
with the whitespace-bearing id " f1" naming the existing feed "f1" once
trimmed, all trimming operations act on the feed while the two image
operations fail with Feed not found. -/
theorem C10_image_ops_do_not_trim_feed_id :
    (getFeedById " f1" demoWorld).1 =
      Except.ok (some { firebase_uid := "u1", description := "hello" }) ∧
    (updateFeed " f1" "u1" "x" demoWorld).1 =
      Except.ok (some { firebase_uid := "u1", description := "x" }) ∧
    (deleteFeed " f1" "u1" demoWorld).1 = Except.ok true ∧
    (likeFeed "u3" " f1" demoWorld).1 = Except.ok true ∧
    (unlikeFeed "u2" " f1" demoWorld).1 = Except.ok true ∧
    (checkLikeStatus "u2" " f1" demoWorld).1 = Except.ok true ∧
    (getLikeCount " f1" true demoWorld).1 = Except.ok (JsNum.num 1) ∧
    (getCommentCount " f1" true demoWorld).1 = Except.ok (JsNum.num 3) ∧
    (updateFeedImage "u1" " f1" "a" "c.jpg" demoWorld).1 = Except.error "Feed not found" ∧
    (deleteFeedImage "u1" " f1" "a" demoWorld).1 = Except.error "Feed not found" := by
  refine ⟨rfl, rfl, rfl, rfl, rfl, rfl, rfl, rfl, rfl, rfl⟩
